import Mathlib

/-!
Verification of the model-path template validator in
`src/pkg/workloads/cortex/lib/model/validation.py`.

The embedding below translates the module as it executes: in particular the
second, shadowing `model_template` assignment (source lines 150-159) is the
one in force, so only `PythonPredictorType` has a registered template.

Python's `os.path` helpers are modelled for the inputs the validator feeds
them: POSIX separators, relative (non-absolute) keys that contain no `.` or
`..` segments.  `os.path.relpath` absolutises both arguments against the same
working directory, whose shared components cancel, so for such inputs the
list-based model below agrees with CPython.

Python's `list(set(xs))` has unspecified order; it is modelled as
first-occurrence deduplication.  All concrete counterexamples below were
chosen so that the refuted statement fails under every element order.
-/

/- ---------------------------------------------------------------- -/
/- Path utilities (model of the `os.path` calls used by the source) -/
/- ---------------------------------------------------------------- -/

def splitSlashAux : List Char → List Char → List String
  | [], acc => [String.mk acc.reverse]
  | c :: cs, acc =>
    if c = '/' then String.mk acc.reverse :: splitSlashAux cs [] else splitSlashAux cs (c :: acc)

/-- Split a POSIX path into its non-empty components. -/
def splitParts (s : String) : List String :=
  (splitSlashAux s.data []).filter (fun x => x ≠ "")

def joinSep (sep : String) : List String → String
  | [] => ""
  | [x] => x
  | x :: y :: xs => x ++ sep ++ joinSep sep (y :: xs)

/-- Length of the longest common prefix of two component lists
(`os.path.commonprefix` applied to lists). -/
def commonLen : List String → List String → Nat
  | x :: xs, y :: ys => if x = y then commonLen xs ys + 1 else 0
  | _, _ => 0

/-- Model of `os.path.relpath(path, start)` for relative POSIX paths without
`.` or `..` segments (see the header comment). -/
def relpath (path start : String) : String :=
  let p := splitParts path
  let st := splitParts start
  let i := commonLen p st
  let rel := List.replicate (st.length - i) ".." ++ p.drop i
  if rel.isEmpty then "." else joinSep "/" rel

/-- Model of `path.startswith("../")` from source line 210. -/
def startsWithParentDir (p : String) : Bool :=
  match p.data with
  | '.' :: '.' :: '/' :: _ => true
  | _ => false

/-- Model of `os.path.join(commonprefix, obj)` for the non-absolute second
argument the source always passes. -/
def pathJoin (a b : String) : String :=
  if a = "" then b
  else if a.data.getLast? = some '/' then a ++ b
  else a ++ "/" ++ b

/-- Source `get_leftmost_part_of_path` (lines 269-273): repeated
`os.path.split` extracts the first segment of a relative path; stable under
separator repetition and trailing separators. -/
def get_leftmost_part_of_path (path : String) : String :=
  match splitParts path with
  | [] => ""
  | x :: _ => x

/-- Model of `list(set(xs))` with first-occurrence order (see header). -/
def dedupFirst : List String → List String
  | [] => []
  | x :: xs => x :: (dedupFirst xs).filter (fun y => y ≠ x)

/-- Model of Python `str.isnumeric` for the ASCII names appearing here:
non-empty and all characters decimal digits. -/
def isnumeric (s : String) : Bool :=
  !s.data.isEmpty && s.data.all Char.isDigit

/-- Rendering of a Python list of strings by `str(...)`, used in the
"unexpected path(s) for" message (source line 253). -/
def pyStrList (l : List String) : String :=
  "[" ++ joinSep ", " (l.map (fun s => "'" ++ s ++ "'")) ++ "]"

/- ------------------------------------------------------------------ -/
/- Errors and predictor types                                         -/
/- ------------------------------------------------------------------ -/

/-- Modelled from the spec: `cortex.lib.exceptions.CortexException` is not
under `src/`.  Spec section 4.5 describes the validation error as a context
plus a message, concatenated outer-to-inner when rendered; the model keeps
the positional constructor arguments. -/
structure CortexError where
  parts : List String
deriving DecidableEq, Repr

/-- Modelled from the spec: `str(e)` of a `CortexException`, read
outer-to-inner as a concatenation of its parts. -/
def CortexError.render (e : CortexError) : String :=
  joinSep ": " e.parts

/-- Modelled from the spec: the predictor-type enumeration of
`cortex.lib.api` is not under `src/`; spec section 6 names the values
PythonPredictor, TensorFlowPredictor, ONNXPredictor. -/
inductive PredictorType where
  | python : PredictorType
  | tensorflow : PredictorType
  | onnx : PredictorType
deriving DecidableEq, Repr

/-- Modelled from the spec: rendering of a predictor type inside error
context strings. -/
def PredictorType.str : PredictorType → String
  | PredictorType.python => "PythonPredictor"
  | PredictorType.tensorflow => "TensorFlowPredictor"
  | PredictorType.onnx => "ONNXPredictor"

/-- Context string `f"{predictor_type} predictor at '{commonprefix}'"`
(source lines 205, 220, 244). -/
def ctx_at (pt : PredictorType) (cp : String) : String :=
  pt.str ++ " predictor at '" ++ cp ++ "'"

/-- Context string `f"{predictor_type} predictor model at '{commonprefix}'"`
(source line 252). -/
def ctx_model_at (pt : PredictorType) (cp : String) : String :=
  pt.str ++ " predictor model at '" ++ cp ++ "'"

/- ------------------------------------------------------------------ -/
/- Placeholders (source lines 33-121)                                 -/
/- ------------------------------------------------------------------ -/

/-- One part of a `PlaceholderGroup`.  Source groups may nest arbitrary
placeholders, but every group literal in the module holds only
`TemplatePlaceholder` and `GenericPlaceholder` parts, so the model keeps
group parts non-recursive. -/
inductive GroupPart where
  | template : String → Nat → GroupPart
  | generic : String → GroupPart
deriving DecidableEq, Repr

/-- The three placeholder shapes of the source: `TemplatePlaceholder`
(storing the angle-bracketed tag and a priority), `GenericPlaceholder`
(storing its value; tag `"<generic>"`, priority 0), and `PlaceholderGroup`
(an ordered parts list; its source priority is a kwarg that is `None` for
every group in the source and no group occurs in the effective template). -/
inductive Placeholder where
  | template : String → Nat → Placeholder
  | generic : String → Placeholder
  | group : List GroupPart → Placeholder
deriving DecidableEq, Repr

def IntegerPlaceholder : Placeholder := Placeholder.template "<integer>" 1

def SinglePlaceholder : Placeholder := Placeholder.template "<single>" 2

def ExclAlternativePlaceholder : Placeholder := Placeholder.template "<exclusive>" 3

def AnyPlaceholder : Placeholder := Placeholder.template "<any>" 4

/-- Sort key `operator.attrgetter("priority")` (source line 225).  Groups
carry `None` in the source; no group reaches the sort in the effective
template, so the model returns 0 for them. -/
def Placeholder.priority : Placeholder → Nat
  | Placeholder.template _ p => p
  | Placeholder.generic _ => 0
  | Placeholder.group _ => 0

/-- Python `==` between placeholder instances.  `TemplatePlaceholder` is a
namedtuple, so it compares by its (placeholder, priority) fields;
`GenericPlaceholder.__eq__` (source lines 69-72) compares only the
`placeholder` tag — which is `"<generic>"` for every generic — and ignores
`value`; a namedtuple never equals a tuple of a different length, so the
two kinds are never equal to each other; `PlaceholderGroup` compares by
object identity, so two distinct group literals are unequal. -/
def placeholderEq : Placeholder → Placeholder → Bool
  | Placeholder.template n1 p1, Placeholder.template n2 p2 => n1 == n2 && p1 == p2
  | Placeholder.generic _, Placeholder.generic _ => true
  | _, _ => false

/-- The tuple hashed by `GenericPlaceholder.__hash__` (source line 75):
`hash((self.placeholder, self.value))`.  Distinct tuples make generics with
different values occupy distinct dict (rule-tree) keys. -/
def genericHashKey (value : String) : String × String :=
  ("<generic>", value)

def isGroup : Placeholder → Bool
  | Placeholder.group _ => true
  | _ => false

/-- Stable insertion keeping earlier-listed keys in front of later ones of
equal priority, matching Python's stable `list.sort`. -/
def insertByPriority (x : Placeholder) : List Placeholder → List Placeholder
  | [] => [x]
  | y :: ys =>
    if x.priority ≤ y.priority then x :: y :: ys else y :: insertByPriority x ys

def sortByPriority : List Placeholder → List Placeholder
  | [] => []
  | x :: xs => insertByPriority x (sortByPriority xs)

/- ------------------------------------------------------------------ -/
/- Template registry (source lines 125-185)                           -/
/- ------------------------------------------------------------------ -/

/-- A rule-tree node: `leaf` models the `None` value ("no further
structure"), `node` models a dict from placeholder to sub-node, kept in
insertion order. -/
inductive Pattern where
  | leaf : Pattern
  | node : List (Placeholder × Pattern) → Pattern

/-- The effective `model_template` entry for `PythonPredictorType`: the
second module-level assignment (source lines 150-159) silently shadows the
first (lines 125-148), dropping the TensorFlow and ONNX entries and
replacing the Python shape. -/
def python_model_template : Pattern :=
  Pattern.node
    [ (IntegerPlaceholder, Pattern.leaf),
      (AnyPlaceholder, Pattern.leaf),
      (Placeholder.generic "0model.onnx",
        Pattern.node
          [ (Placeholder.generic "123", Pattern.leaf),
            (IntegerPlaceholder, Pattern.leaf) ]) ]

/-- The effective `model_template` dict: after the shadowing assignment only
`PythonPredictorType` is present; `none` models a `KeyError` lookup. -/
def model_template : PredictorType → Option Pattern
  | PredictorType.python => some python_model_template
  | _ => none

/-- Source `single_model_pattern` (lines 181-185). -/
def single_model_pattern (pt : PredictorType) : Option Pattern :=
  model_template pt

mutual
/-- Structural size of a rule tree, used as the recursion budget of the
model: every recursive call of the matcher descends into a dict value of
the current node, whose size is strictly smaller. -/
def patternSize : Pattern → Nat
  | Pattern.leaf => 1
  | Pattern.node entries => 1 + entriesSize entries
def entriesSize : List (Placeholder × Pattern) → Nat
  | [] => 0
  | e :: rest => 1 + patternSize e.2 + entriesSize rest
end

/- ------------------------------------------------------------------ -/
/- Per-rule validators (source lines 276-336)                         -/
/- ------------------------------------------------------------------ -/

/-- The `visited_objects` entry for one object: `none` is Python's `False`,
`some k` records the index of the claiming rule. -/
abbrev Visit := Option Nat

/-- The claiming loop of `validate_integer_placeholder` (source lines
279-283): walk objects and visited in lockstep, claim every unvisited
numeric-named object, and count the claims. -/
def integer_claim (keyId : Nat) : List (String × Visit) → List Visit × Nat
  | [] => ([], 0)
  | (obj, v) :: rest =>
    let r := integer_claim keyId rest
    if isnumeric obj && v.isNone then (some keyId :: r.1, r.2 + 1) else (v :: r.1, r.2)

/-- Source `validate_integer_placeholder` (lines 276-288). -/
def validate_integer_placeholder (placeholders : List Placeholder) (keyId : Nat)
    (objects : List String) (visited : List Visit) : Except CortexError (List Visit) :=
  let r := integer_claim keyId (objects.zip visited)
  if r.2 > 1 ∧ placeholders.length = 1 then
    Except.error ⟨["too many <integer> appearances in path"]⟩
  else if r.2 = 0 then
    Except.error ⟨["<integer> not found in path"]⟩
  else
    Except.ok r.1

/-- Source `validate_any_placeholder` (lines 291-296): claim every
still-unvisited object; never raises. -/
def validate_any_placeholder (placeholders : List Placeholder) (keyId : Nat)
    (objects : List String) (visited : List Visit) : Except CortexError (List Visit) :=
  Except.ok (visited.map (fun v =>
    match v with
    | none => some keyId
    | some k => some k))

/-- Source `validate_single_placeholder` (lines 299-305). -/
def validate_single_placeholder (placeholders : List Placeholder) (keyId : Nat)
    (objects : List String) (visited : List Visit) : Except CortexError (List Visit) :=
  if placeholders.length > 1 ∨ objects.length > 1 then
    Except.error ⟨["only a single <single> is allowed per directory"]⟩
  else
    match visited with
    | none :: rest => Except.ok (some keyId :: rest)
    | v => Except.ok v

/-- Source `validate_generic_placeholder` (lines 308-324): scan for the
first object equal to the generic's value; claim it if still unvisited;
fail when no object matches.  The scanned index is always below
`visited.length` when called by the matcher. -/
def validate_generic_placeholder (placeholders : List Placeholder) (keyId : Nat)
    (objects : List String) (visited : List Visit) (value : String) :
    Except CortexError (List Visit) :=
  match objects.findIdx? (fun o => o == value) with
  | some idx =>
    if visited.get? idx = some none then Except.ok (visited.set idx (some keyId))
    else Except.ok visited
  | none => Except.error ⟨["generic placeholder for " ++ value ++ " wasn't found"]⟩

/-- Source `validate_group_placeholder` (lines 327-330): a no-op. -/
def validate_group_placeholder (placeholders : List Placeholder) (keyId : Nat)
    (objects : List String) (visited : List Visit) : Except CortexError (List Visit) :=
  Except.ok visited

/-- Source `validate_exclusive_placeholder` (lines 333-336): a no-op. -/
def validate_exclusive_placeholder (placeholders : List Placeholder) (keyId : Nat)
    (objects : List String) (visited : List Visit) : Except CortexError (List Visit) :=
  Except.ok visited

/-- The dispatch chain of the rule loop (source lines 229-242), in source
order.  `key == GenericPlaceholder("")` is true for every generic because
`GenericPlaceholder.__eq__` ignores the value. -/
def dispatch_placeholder (keys : List Placeholder) (keyId : Nat) (key : Placeholder)
    (objects : List String) (visited : List Visit) : Except CortexError (List Visit) :=
  if placeholderEq key IntegerPlaceholder then
    validate_integer_placeholder keys keyId objects visited
  else if placeholderEq key AnyPlaceholder then
    validate_any_placeholder keys keyId objects visited
  else if placeholderEq key SinglePlaceholder then
    validate_single_placeholder keys keyId objects visited
  else if placeholderEq key (Placeholder.generic "") then
    match key with
    | Placeholder.generic v => validate_generic_placeholder keys keyId objects visited v
    | _ => Except.error ⟨["found a non-placeholder object in model template"]⟩
  else if isGroup key then
    validate_group_placeholder keys keyId objects visited
  else if placeholderEq key ExclAlternativePlaceholder then
    validate_exclusive_placeholder keys keyId objects visited
  else
    Except.error ⟨["found a non-placeholder object in model template"]⟩

def run_rules_aux (allKeys : List Placeholder) (objects : List String) :
    List Placeholder → Nat → List Visit → Except CortexError (List Visit)
  | [], _, visited => Except.ok visited
  | key :: rest, keyId, visited =>
    match dispatch_placeholder allKeys keyId key objects visited with
    | Except.error e => Except.error e
    | Except.ok v => run_rules_aux allKeys objects rest (keyId + 1) v

/-- The `for key_id, key in enumerate(keys)` loop of the matcher (source
lines 228-242), threading the shared `visited_objects` record and stopping
at the first raised error. -/
def run_placeholder_rules (keys : List Placeholder) (objects : List String) :
    Except CortexError (List Visit) :=
  run_rules_aux keys objects keys 0 (objects.map (fun _ => (none : Visit)))

/- ------------------------------------------------------------------ -/
/- The matcher engine (source lines 197-266)                          -/
/- ------------------------------------------------------------------ -/

/-- `unvisited_paths` collection (source lines 246-249): for every index
whose object is still unvisited the code appends `paths[idx]` — the
relative path at that index, not the object.  The index is always in range
in the matcher because `len(objects) <= len(paths)`. -/
def unvisited_relpaths : List String → List Visit → List String
  | _, [] => []
  | [], _ :: _ => []
  | p :: ps, v :: vs =>
    if v = none then p :: unvisited_relpaths ps vs
    else unvisited_relpaths ps vs

/-- Source line 209-210: relative paths under the current common prefix,
discarding entries that begin with `"../"`. -/
def pathsAt (s3_paths : List String) (cp : String) : List String :=
  (s3_paths.map (fun p => relpath p cp)).filter (fun p => !startsWithParentDir p)

/-- Source lines 212-213: the level's object set — deduplicated leftmost
segments of the relative paths. -/
def objectsAt (s3_paths : List String) (cp : String) : List String :=
  dedupFirst ((pathsAt s3_paths cp).map get_leftmost_part_of_path)

/-- One level's rule evaluation and unexpected-path check (source lines
227-254): the `try` block wraps only rule errors with the current context;
the "unexpected path(s)" error is raised directly with the
`predictor model at` context. -/
def level_phase (pt : PredictorType) (cp : String) (keys : List Placeholder)
    (paths objects : List String) : Except CortexError (List Visit) :=
  match run_placeholder_rules keys objects with
  | Except.error e => Except.error ⟨[ctx_at pt cp, e.render]⟩
  | Except.ok visited =>
    if unvisited_relpaths paths visited = [] then Except.ok visited
    else
      Except.error ⟨[ctx_model_at pt cp,
        "unexpected path(s) for " ++ pyStrList (unvisited_relpaths paths visited)]⟩

/-- Outcome of one `_validate_s3_model_paths` call.  `exn` is a raised
`CortexException`; `outOfFuel` marks exhaustion of the recursion budget of
the model (the Python recursion is unbounded); `pyError` models an uncaught
non-Cortex exception (`KeyError`/`IndexError`), unreachable on the
well-formed static template. -/
inductive RunResult where
  | ok : RunResult
  | exn : CortexError → RunResult
  | outOfFuel : RunResult
  | pyError : RunResult
deriving DecidableEq, Repr

/-- First non-ok result of the sequential recursion loop (source lines
256-263): Python raises at the first failing child. -/
def first_failure : List RunResult → RunResult
  | [] => RunResult.ok
  | RunResult.ok :: rest => first_failure rest
  | r :: _ => r

/-- Source `_validate_s3_model_paths` (lines 208-263), with an explicit
recursion budget.  Each recursive call descends into `pattern[key]`; child
results are combined by first failure, which agrees with Python's
sequential raise-on-first-failure since the children are independent. -/
def validate_inner (pt : PredictorType) : Nat → Pattern → List String → String → RunResult
  | 0, _, _, _ => RunResult.outOfFuel
  | fuel + 1, pattern, s3_paths, cp =>
    match pattern with
    | Pattern.leaf =>
      if objectsAt s3_paths cp = ["."] then RunResult.ok
      else
        RunResult.exn ⟨[ctx_at pt cp,
          "template doesn't specify a substructure for the given path"]⟩
    | Pattern.node entries =>
      match level_phase pt cp (sortByPriority (entries.map Prod.fst))
          (pathsAt s3_paths cp) (objectsAt s3_paths cp) with
      | Except.error e => RunResult.exn e
      | Except.ok visited =>
        first_failure (((objectsAt s3_paths cp).zip visited).map (fun ov =>
          match ov.2 with
          | none => RunResult.pyError
          | some keyId =>
            match (sortByPriority (entries.map Prod.fst)).get? keyId with
            | none => RunResult.pyError
            | some key =>
              match entries.lookup key with
              | none => RunResult.pyError
              | some sub => validate_inner pt fuel sub s3_paths (pathJoin cp ov.1)))

/-- The per-child computation of the recursion loop (source lines 256-263):
`keys[key_id]`, then `pattern[key]`, then the recursive call with the
prefix extended by the object's name.  Definitionally equal to the lambda
inside `validate_inner`. -/
def child_result (pt : PredictorType) (fuel : Nat) (entries : List (Placeholder × Pattern))
    (keys : List Placeholder) (s3_paths : List String) (cp : String)
    (ov : String × Visit) : RunResult :=
  match ov.2 with
  | none => RunResult.pyError
  | some keyId =>
    match keys.get? keyId with
    | none => RunResult.pyError
    | some key =>
      match entries.lookup key with
      | none => RunResult.pyError
      | some sub => validate_inner pt fuel sub s3_paths (pathJoin cp ov.1)

/-- Source `validate_s3_model_paths` (lines 197-266): the empty-input check
precedes the template lookup; the inner matcher then runs with a budget
that theorem `c10_matcher_terminates` proves sufficient. -/
def validate_s3_model_paths (s3_paths : List String) (pt : PredictorType)
    (cp : String) : RunResult :=
  if s3_paths.length = 0 then
    RunResult.exn ⟨[ctx_at pt cp, "model path can't be empty"]⟩
  else
    match single_model_pattern pt with
    | none => RunResult.pyError
    | some pattern => validate_inner pt (patternSize pattern) pattern s3_paths cp

/- ------------------------------------------------------------------ -/
/- Helper lemmas                                                      -/
/- ------------------------------------------------------------------ -/

theorem validate_inner_node_eq (pt : PredictorType) (fuel : Nat)
    (entries : List (Placeholder × Pattern)) (s3_paths : List String) (cp : String) :
    validate_inner pt (fuel + 1) (Pattern.node entries) s3_paths cp =
      match level_phase pt cp (sortByPriority (entries.map Prod.fst))
          (pathsAt s3_paths cp) (objectsAt s3_paths cp) with
      | Except.error e => RunResult.exn e
      | Except.ok visited =>
        first_failure (((objectsAt s3_paths cp).zip visited).map
          (child_result pt fuel entries (sortByPriority (entries.map Prod.fst)) s3_paths cp)) :=
  rfl

theorem patternSize_pos (p : Pattern) : 1 ≤ patternSize p := by
  cases p <;> simp [patternSize]

theorem first_failure_outOfFuel : ∀ l : List RunResult,
    first_failure l = RunResult.outOfFuel → RunResult.outOfFuel ∈ l := by
  intro l
  induction l with
  | nil => intro h; simp [first_failure] at h
  | cons r rest ih =>
    intro h
    cases r with
    | ok => exact List.mem_cons_of_mem _ (ih (by simpa [first_failure] using h))
    | exn e => simp [first_failure] at h
    | outOfFuel => exact List.mem_cons_self _ _
    | pyError => simp [first_failure] at h

theorem lookup_entriesSize :
    ∀ (entries : List (Placeholder × Pattern)) (key : Placeholder) (sub : Pattern),
      List.lookup key entries = some sub → patternSize sub < 1 + entriesSize entries := by
  intro entries
  induction entries with
  | nil => intro key sub h; simp at h
  | cons e rest ih =>
    intro key sub h
    obtain ⟨k, child⟩ := e
    have hsz : entriesSize ((k, child) :: rest) = 1 + patternSize child + entriesSize rest := by
      simp [entriesSize]
    simp only [List.lookup] at h
    cases hk : (key == k) with
    | true =>
      rw [hk] at h
      simp only at h
      have h2 : child = sub := Option.some.inj h
      rw [← h2]
      omega
    | false =>
      rw [hk] at h
      simp only at h
      have hrec := ih key sub h
      omega

theorem dedupFirst_length_le : ∀ l : List String, (dedupFirst l).length ≤ l.length := by
  intro l
  induction l with
  | nil => simp [dedupFirst]
  | cons x xs ih =>
    simp only [dedupFirst, List.length_cons]
    have hf : ((dedupFirst xs).filter (fun y => y ≠ x)).length ≤ (dedupFirst xs).length :=
      List.length_filter_le _ _
    omega

theorem unvisited_nil_of_all_visited : ∀ (ps : List String) (vs : List Visit),
    (∀ v ∈ vs, v ≠ none) → unvisited_relpaths ps vs = [] := by
  intro ps vs
  induction vs generalizing ps with
  | nil => intro _; cases ps <;> rfl
  | cons v rest ih =>
    intro h
    cases ps with
    | nil => rfl
    | cons p ps' =>
      have hv : v ≠ none := h v (List.mem_cons_self _ _)
      simp only [unvisited_relpaths, if_neg hv]
      exact ih ps' (fun w hw => h w (List.mem_cons_of_mem _ hw))

theorem all_visited_of_unvisited_nil : ∀ (vs : List Visit) (ps : List String),
    vs.length ≤ ps.length → unvisited_relpaths ps vs = [] → ∀ v ∈ vs, v ≠ none := by
  intro vs
  induction vs with
  | nil => intro ps _ _ v hv; cases hv
  | cons v rest ih =>
    intro ps hlen hnil w hw
    cases ps with
    | nil => simp at hlen
    | cons p ps' =>
      by_cases hv : v = none
      · rw [show unvisited_relpaths (p :: ps') (v :: rest) =
            p :: unvisited_relpaths ps' rest from by simp [unvisited_relpaths, hv]] at hnil
        cases hnil
      · rcases List.mem_cons.mp hw with h1 | h2
        · rw [h1]; exact hv
        · have hnil' : unvisited_relpaths ps' rest = [] := by
            rw [show unvisited_relpaths (p :: ps') (v :: rest) =
              unvisited_relpaths ps' rest from by simp [unvisited_relpaths, hv]] at hnil
            exact hnil
          exact ih ps' (by simpa using Nat.le_of_succ_le_succ hlen) hnil' w h2

theorem integer_claim_init (k : Nat) : ∀ objs : List String,
    integer_claim k (objs.zip (objs.map (fun _ => (none : Visit)))) =
      (objs.map (fun o => if isnumeric o then some k else (none : Visit)),
       (objs.filter isnumeric).length) := by
  intro objs
  induction objs with
  | nil => rfl
  | cons o rest ih =>
    have hz : (o :: rest).zip ((o :: rest).map (fun _ => (none : Visit))) =
        (o, (none : Visit)) :: rest.zip (rest.map (fun _ => (none : Visit))) := rfl
    rw [hz]
    simp only [integer_claim, ih, Option.isNone_none, Bool.and_true]
    cases hn : isnumeric o <;>
      simp [hn, List.filter_cons, List.map_cons]

theorem run_single_rule (key : Placeholder) (objs : List String) :
    run_placeholder_rules [key] objs =
      dispatch_placeholder [key] 0 key objs (objs.map (fun _ => (none : Visit))) := by
  unfold run_placeholder_rules
  cases h : dispatch_placeholder [key] 0 key objs (objs.map (fun _ => (none : Visit))) with
  | error e => simp only [run_rules_aux, h]
  | ok v => simp only [run_rules_aux, h]

/- ------------------------------------------------------------------ -/
/- Claim theorems                                                     -/
/- ------------------------------------------------------------------ -/

/-- C1 (code-bug evidence): with the effective, shadowing `model_template`,
validating `["models/a/1/model.pkl"]` for the Python predictor under common
prefix `"models/a"` does not succeed — the top-level
`GenericPlaceholder("0model.onnx")` rule (priority 0, evaluated first) finds
no matching object and the call raises, where the spec's Scenario 1 (written
against the intended, first `model_template` assignment) expects success. -/
theorem c1_shadowed_template_rejects_python_single_path :
    validate_s3_model_paths ["models/a/1/model.pkl"] PredictorType.python "models/a" =
      RunResult.exn ⟨[ctx_at PredictorType.python "models/a",
        "generic placeholder for 0model.onnx wasn't found"]⟩ := by
  decide

/-- C3: for every predictor type (including those without a registered
template, since the check precedes the template lookup) and every common
prefix, validating an empty path list raises a validation error whose
message is "model path can't be empty". -/
theorem c3_empty_path_list_rejected (pt : PredictorType) (cp : String) :
    validate_s3_model_paths [] pt cp =
      RunResult.exn ⟨[ctx_at pt cp, "model path can't be empty"]⟩ := by
  rfl

/-- C4 counterexample: at the inner level of the template the only
still-unvisited object is `"sub"`, yet the error message embeds
`['sub/file']` — the relative path at that object's index — and not the
unvisited object set `['sub']`; this refutes the claim that the embedded
list is exactly the set of still-unvisited objects.  (`"sub"` is not even a
member of the level's relative-path list, so no `list(set(...))` ordering
could make the claim true.) -/
theorem c4_counterexample_message_lists_paths_not_objects :
    validate_s3_model_paths
        ["p/1", "p/0model.onnx/123", "p/0model.onnx/2", "p/0model.onnx/sub/file"]
        PredictorType.python "p" =
      RunResult.exn ⟨[ctx_model_at PredictorType.python "p/0model.onnx",
        "unexpected path(s) for " ++ pyStrList ["sub/file"]]⟩ ∧
    objectsAt ["p/1", "p/0model.onnx/123", "p/0model.onnx/2", "p/0model.onnx/sub/file"]
        "p/0model.onnx" = ["123", "2", "sub"] ∧
    "unexpected path(s) for " ++ pyStrList ["sub/file"] ≠
      "unexpected path(s) for " ++ pyStrList ["sub"] := by
  refine ⟨by decide, by decide, by decide⟩

/-- C4 (amended): when the rules of a level succeed but some object remains
unvisited, validation fails with the "unexpected path(s) for" error whose
embedded list is `unvisited_relpaths` — the relative paths at the indices of
the still-unvisited objects, not the objects themselves. -/
theorem c4_amended_unexpected_message (pt : PredictorType) (fuel : Nat)
    (entries : List (Placeholder × Pattern)) (s3_paths : List String) (cp : String)
    (visited : List Visit)
    (hr : run_placeholder_rules (sortByPriority (entries.map Prod.fst))
        (objectsAt s3_paths cp) = Except.ok visited)
    (hu : unvisited_relpaths (pathsAt s3_paths cp) visited ≠ []) :
    validate_inner pt (fuel + 1) (Pattern.node entries) s3_paths cp =
      RunResult.exn ⟨[ctx_model_at pt cp,
        "unexpected path(s) for " ++
          pyStrList (unvisited_relpaths (pathsAt s3_paths cp) visited)]⟩ := by
  rw [validate_inner_node_eq]
  unfold level_phase
  rw [hr]
  simp [hu]

/-- C4 witness for the amended theorem, at the concrete input of the
counterexample's inner level. -/
theorem c4_amended_witness :
    validate_inner PredictorType.python 1
        (Pattern.node [(Placeholder.generic "123", Pattern.leaf),
          (IntegerPlaceholder, Pattern.leaf)])
        ["p/1", "p/0model.onnx/123", "p/0model.onnx/2", "p/0model.onnx/sub/file"]
        "p/0model.onnx" =
      RunResult.exn ⟨[ctx_model_at PredictorType.python "p/0model.onnx",
        "unexpected path(s) for " ++
          pyStrList (unvisited_relpaths
            (pathsAt ["p/1", "p/0model.onnx/123", "p/0model.onnx/2",
              "p/0model.onnx/sub/file"] "p/0model.onnx")
            [some 0, some 1, none])]⟩ :=
  c4_amended_unexpected_message PredictorType.python 0
    [(Placeholder.generic "123", Pattern.leaf), (IntegerPlaceholder, Pattern.leaf)]
    ["p/1", "p/0model.onnx/123", "p/0model.onnx/2", "p/0model.onnx/sub/file"]
    "p/0model.onnx" [some 0, some 1, none] (by rfl) (by decide)

/-- C5 counterexample: a failure two levels deep surfaces carrying only the
failing frame's context (`... at 'p/0model.onnx'`); the enclosing root
frame (context `... at 'p'`) adds nothing, refuting the claim that every
enclosing recursion frame re-wraps the error with its own context. -/
theorem c5_counterexample_no_breadcrumb_trail :
    validate_s3_model_paths ["p/0model.onnx/xyz", "p/1"] PredictorType.python "p" =
      RunResult.exn ⟨[ctx_at PredictorType.python "p/0model.onnx",
        "generic placeholder for 123 wasn't found"]⟩ ∧
    ctx_at PredictorType.python "p" ∉
      [ctx_at PredictorType.python "p/0model.onnx",
        "generic placeholder for 123 wasn't found"] := by
  refine ⟨by decide, by decide⟩

/-- C5 (amended): when a level's rule evaluation and unexpected-path check
succeed, the frame's result is exactly the first failure of its children's
results, unchanged — the recursive calls sit outside the `try` block, so a
failure from a sub-call propagates without being re-wrapped with the
enclosing frame's context (only the frame whose own rule loop raised wraps
once with its context). -/
theorem c5_amended_child_errors_propagate_unwrapped (pt : PredictorType) (fuel : Nat)
    (entries : List (Placeholder × Pattern)) (s3_paths : List String) (cp : String)
    (visited : List Visit)
    (hlp : level_phase pt cp (sortByPriority (entries.map Prod.fst))
        (pathsAt s3_paths cp) (objectsAt s3_paths cp) = Except.ok visited) :
    validate_inner pt (fuel + 1) (Pattern.node entries) s3_paths cp =
      first_failure (((objectsAt s3_paths cp).zip visited).map
        (child_result pt fuel entries (sortByPriority (entries.map Prod.fst))
          s3_paths cp)) := by
  rw [validate_inner_node_eq, hlp]

/-- C5 witness for the amended theorem, at the counterexample's top level:
the child failure surfaces through the root frame unchanged. -/
theorem c5_amended_witness :
    validate_inner PredictorType.python 6 python_model_template
        ["p/0model.onnx/xyz", "p/1"] "p" =
      first_failure ((["0model.onnx", "1"].zip [some 0, some 1]).map
        (child_result PredictorType.python 5
          [(IntegerPlaceholder, Pattern.leaf), (AnyPlaceholder, Pattern.leaf),
            (Placeholder.generic "0model.onnx",
              Pattern.node [(Placeholder.generic "123", Pattern.leaf),
                (IntegerPlaceholder, Pattern.leaf)])]
          (sortByPriority ([(IntegerPlaceholder, Pattern.leaf),
            (AnyPlaceholder, Pattern.leaf),
            (Placeholder.generic "0model.onnx",
              Pattern.node [(Placeholder.generic "123", Pattern.leaf),
                (IntegerPlaceholder, Pattern.leaf)])].map Prod.fst))
          ["p/0model.onnx/xyz", "p/1"] "p")) := by
  have h := c5_amended_child_errors_propagate_unwrapped PredictorType.python 5
    [(IntegerPlaceholder, Pattern.leaf), (AnyPlaceholder, Pattern.leaf),
      (Placeholder.generic "0model.onnx",
        Pattern.node [(Placeholder.generic "123", Pattern.leaf),
          (IntegerPlaceholder, Pattern.leaf)])]
    ["p/0model.onnx/xyz", "p/1"] "p" [some 0, some 1] (by rfl)
  exact h

/-- C6 counterexample: two `GenericPlaceholder` instances with different
carried values compare equal under the source's `__eq__`, refuting the
claim that placeholders compare equal only when kind and carried value both
match. -/
theorem c6_counterexample_generic_eq_ignores_value :
    placeholderEq (Placeholder.generic "a") (Placeholder.generic "b") = true ∧
    ("a" : String) ≠ "b" := by
  refine ⟨rfl, by decide⟩

/-- C6 (amended): `TemplatePlaceholder` instances compare equal iff they
carry the same tag string and priority; any two `GenericPlaceholder`
instances compare equal regardless of value (`__eq__` ignores it); yet the
hashed tuple `(placeholder, value)` distinguishes values, so generics with
different values still occupy distinct rule-tree map keys. -/
theorem c6_amended_placeholder_equality :
    (∀ (n1 : String) (p1 : Nat) (n2 : String) (p2 : Nat),
      placeholderEq (Placeholder.template n1 p1) (Placeholder.template n2 p2) = true ↔
        (n1 = n2 ∧ p1 = p2)) ∧
    (∀ v w : String, placeholderEq (Placeholder.generic v) (Placeholder.generic w) = true) ∧
    (∀ v w : String, genericHashKey v = genericHashKey w ↔ v = w) := by
  refine ⟨fun n1 p1 n2 p2 => ?_, fun v w => rfl, fun v w => ?_⟩
  · simp [placeholderEq]
  · simp [genericHashKey]

/-- C7 counterexample: the input path `"p"` does not lie under the common
prefix `"p/x"` (its relative form is the parent marker `".."`), yet it
passes the `startswith("../")` filter and enters the level's object set as
the object `".."`, refuting the claim that every path resolving outside the
prefix is excluded from the object set. -/
theorem c7_counterexample_parent_path_not_excluded :
    relpath "p" "p/x" = ".." ∧
    startsWithParentDir ".." = false ∧
    pathsAt ["p"] "p/x" = [".."] ∧
    objectsAt ["p"] "p/x" = [".."] := by
  refine ⟨by decide, by decide, by decide, by decide⟩

/-- C7 (amended): a path survives the level filter iff its prefix-relative
form does not start with `"../"`; relative forms such as `"../a"` are
excluded, but the bare parent `".."` is not and becomes an object of the
level. -/
theorem c7_amended_path_filter (s3_paths : List String) (cp p : String) :
    (p ∈ pathsAt s3_paths cp ↔
      ((∃ q ∈ s3_paths, relpath q cp = p) ∧ startsWithParentDir p = false)) ∧
    startsWithParentDir "../a" = true ∧
    startsWithParentDir ".." = false := by
  refine ⟨?_, by decide, by decide⟩
  unfold pathsAt
  rw [List.mem_filter, List.mem_map]
  simp [Bool.not_eq_true']

/-- C7 witness for the amended theorem, at a concrete membership. -/
theorem c7_amended_witness :
    ".." ∈ pathsAt ["p"] "p/x" ∧ "q/z" ∉ pathsAt ["q/z"] "p" :=
  ⟨(c7_amended_path_filter ["p"] "p/x" "..").1.mpr (by decide),
   fun hmem => by
    have h := (c7_amended_path_filter ["q/z"] "p" "q/z").1.mp hmem
    revert h
    decide⟩

/-- C10: the matcher terminates on every input — with any recursion budget
of at least the template's structural size, the model of
`_validate_s3_model_paths` never exhausts its budget, because each
recursive call descends into a dict value of the current node, which is
structurally smaller; no path list, predictor type, or prefix can force
unbounded recursion. -/
theorem c10_matcher_terminates : ∀ (fuel : Nat) (pt : PredictorType) (pattern : Pattern)
    (s3_paths : List String) (cp : String), patternSize pattern ≤ fuel →
    validate_inner pt fuel pattern s3_paths cp ≠ RunResult.outOfFuel := by
  intro fuel
  induction fuel with
  | zero =>
    intro pt pattern s3_paths cp h
    have := patternSize_pos pattern
    omega
  | succ f ih =>
    intro pt pattern s3_paths cp h
    cases pattern with
    | leaf =>
      have hleaf : validate_inner pt (f + 1) Pattern.leaf s3_paths cp =
          (if objectsAt s3_paths cp = ["."] then RunResult.ok
           else RunResult.exn ⟨[ctx_at pt cp,
             "template doesn't specify a substructure for the given path"]⟩) := rfl
      rw [hleaf]
      split <;> simp
    | node entries =>
      rw [validate_inner_node_eq]
      cases hlp : level_phase pt cp (sortByPriority (entries.map Prod.fst))
          (pathsAt s3_paths cp) (objectsAt s3_paths cp) with
      | error e => simp
      | ok visited =>
        intro hcontra
        have hmem := first_failure_outOfFuel _ hcontra
        rw [List.mem_map] at hmem
        obtain ⟨ov, hov, heq⟩ := hmem
        obtain ⟨obj, vis⟩ := ov
        cases vis with
        | none => exact RunResult.noConfusion (show RunResult.pyError = RunResult.outOfFuel from heq)
        | some keyId =>
          have heq2 : (match (sortByPriority (entries.map Prod.fst)).get? keyId with
              | none => RunResult.pyError
              | some key =>
                match List.lookup key entries with
                | none => RunResult.pyError
                | some sub => validate_inner pt f sub s3_paths (pathJoin cp obj)) =
              RunResult.outOfFuel := heq
          cases hk : (sortByPriority (entries.map Prod.fst)).get? keyId with
          | none =>
            rw [hk] at heq2
            exact RunResult.noConfusion (show RunResult.pyError = RunResult.outOfFuel from heq2)
          | some key =>
            rw [hk] at heq2
            have heq3 : (match List.lookup key entries with
                | none => RunResult.pyError
                | some sub => validate_inner pt f sub s3_paths (pathJoin cp obj)) =
                RunResult.outOfFuel := heq2
            cases hl : List.lookup key entries with
            | none =>
              rw [hl] at heq3
              exact RunResult.noConfusion (show RunResult.pyError = RunResult.outOfFuel from heq3)
            | some sub =>
              rw [hl] at heq3
              have heq4 : validate_inner pt f sub s3_paths (pathJoin cp obj) =
                  RunResult.outOfFuel := heq3
              have hsz : patternSize sub < 1 + entriesSize entries :=
                lookup_entriesSize entries key sub hl
              have hnode : patternSize (Pattern.node entries) = 1 + entriesSize entries := by
                simp [patternSize]
              exact ih pt sub s3_paths (pathJoin cp obj) (by omega) heq4

/-- C10 witness: the budget used by `validate_s3_model_paths` suffices for
the effective Python template on a concrete input. -/
theorem c10_witness :
    validate_inner PredictorType.python (patternSize python_model_template)
        python_model_template ["p/x"] "p" ≠ RunResult.outOfFuel :=
  c10_matcher_terminates (patternSize python_model_template) PredictorType.python
    python_model_template ["p/x"] "p" (Nat.le_refl _)

/-- If the rule loop succeeds and no object is left unvisited, the level
phase returns the visited record. -/
theorem level_phase_ok (pt : PredictorType) (cp : String) (keys : List Placeholder)
    (paths objects : List String) (visited : List Visit)
    (hr : run_placeholder_rules keys objects = Except.ok visited)
    (hnil : unvisited_relpaths paths visited = []) :
    level_phase pt cp keys paths objects = Except.ok visited := by
  unfold level_phase
  rw [hr]
  simp [hnil]

/-- A rule-loop error is wrapped once with the frame's context. -/
theorem level_phase_rule_error (pt : PredictorType) (cp : String) (keys : List Placeholder)
    (paths objects : List String) (e : CortexError)
    (hr : run_placeholder_rules keys objects = Except.error e) :
    level_phase pt cp keys paths objects = Except.error ⟨[ctx_at pt cp, e.render]⟩ := by
  unfold level_phase
  rw [hr]

/-- C2: at a level whose sole rule is `Integer`, the level validation
succeeds iff the object set is exactly one all-digits name; with two or
more numeric objects it fails with the "too many" Integer error; with no
numeric object it fails with the Integer "not found" error. -/
theorem c2_integer_sole_rule (pt : PredictorType) (cp : String) (paths objects : List String)
    (hobj : objects = dedupFirst (paths.map get_leftmost_part_of_path)) :
    ((∃ v, level_phase pt cp [IntegerPlaceholder] paths objects = Except.ok v) ↔
      (objects.length = 1 ∧ ∀ o ∈ objects, isnumeric o = true)) ∧
    (2 ≤ (objects.filter isnumeric).length →
      level_phase pt cp [IntegerPlaceholder] paths objects =
        Except.error ⟨[ctx_at pt cp, "too many <integer> appearances in path"]⟩) ∧
    ((objects.filter isnumeric).length = 0 →
      level_phase pt cp [IntegerPlaceholder] paths objects =
        Except.error ⟨[ctx_at pt cp, "<integer> not found in path"]⟩) := by
  have hlen : objects.length ≤ paths.length := by
    rw [hobj]
    have h1 := dedupFirst_length_le (paths.map get_leftmost_part_of_path)
    simpa using h1
  have hdisp : run_placeholder_rules [IntegerPlaceholder] objects =
      validate_integer_placeholder [IntegerPlaceholder] 0 objects
        (objects.map (fun _ => (none : Visit))) := by
    rw [run_single_rule]
    rfl
  rcases Nat.lt_trichotomy (objects.filter isnumeric).length 1 with hn | hn | hn
  · -- no numeric object
    have hn0 : (objects.filter isnumeric).length = 0 := by omega
    have hvip : validate_integer_placeholder [IntegerPlaceholder] 0 objects
        (objects.map (fun _ => (none : Visit))) =
        Except.error ⟨["<integer> not found in path"]⟩ := by
      simp only [validate_integer_placeholder, integer_claim_init]
      simp [hn0]
    have hlev : level_phase pt cp [IntegerPlaceholder] paths objects =
        Except.error ⟨[ctx_at pt cp, "<integer> not found in path"]⟩ :=
      level_phase_rule_error pt cp [IntegerPlaceholder] paths objects _
        (hdisp.trans hvip)
    refine ⟨iff_of_false ?_ ?_, ?_, ?_⟩
    · rintro ⟨v, hv⟩
      rw [hlev] at hv
      cases hv
    · rintro ⟨hl1, hall⟩
      have hfe : objects.filter isnumeric = objects := List.filter_eq_self.mpr hall
      rw [hfe] at hn0
      omega
    · intro h2; exfalso; omega
    · intro _; exact hlev
  · -- exactly one numeric object
    have hvip : validate_integer_placeholder [IntegerPlaceholder] 0 objects
        (objects.map (fun _ => (none : Visit))) =
        Except.ok (objects.map (fun o => if isnumeric o then some 0 else none)) := by
      simp only [validate_integer_placeholder, integer_claim_init]
      simp [hn]
    by_cases hall : ∀ o ∈ objects, isnumeric o = true
    · have hvnone : ∀ v ∈ objects.map (fun o => if isnumeric o then some 0 else (none : Visit)),
          v ≠ none := by
        intro v hv
        rw [List.mem_map] at hv
        obtain ⟨o, ho, rfl⟩ := hv
        simp [hall o ho]
      have hnil := unvisited_nil_of_all_visited paths _ hvnone
      have hlev : level_phase pt cp [IntegerPlaceholder] paths objects =
          Except.ok (objects.map (fun o => if isnumeric o then some 0 else none)) :=
        level_phase_ok pt cp [IntegerPlaceholder] paths objects _
          (hdisp.trans hvip) hnil
      refine ⟨?_, ?_, ?_⟩
      · constructor
        · intro _
          have hfe : objects.filter isnumeric = objects := List.filter_eq_self.mpr hall
          rw [hfe] at hn
          exact ⟨hn, hall⟩
        · intro _
          exact ⟨_, hlev⟩
      · intro h2; exfalso; omega
      · intro h0; exfalso; omega
    · have hne : unvisited_relpaths paths
          (objects.map (fun o => if isnumeric o then some 0 else (none : Visit))) ≠ [] := by
        intro hnil
        have hml : (objects.map (fun o => if isnumeric o then some 0 else (none : Visit))).length
            ≤ paths.length := by
          rw [List.length_map]
          exact hlen
        have hv := all_visited_of_unvisited_nil _ paths hml hnil
        apply hall
        intro o ho
        have hmem := List.mem_map_of_mem
          (fun o => if isnumeric o then some 0 else (none : Visit)) ho
        have hvo := hv _ hmem
        by_cases hno : isnumeric o
        · exact hno
        · have hvo2 : (if isnumeric o = true then some 0 else (none : Visit)) ≠ none := hvo
          rw [if_neg hno] at hvo2
          exact absurd rfl hvo2
      have hlev : level_phase pt cp [IntegerPlaceholder] paths objects =
          Except.error ⟨[ctx_model_at pt cp, "unexpected path(s) for " ++
            pyStrList (unvisited_relpaths paths
              (objects.map (fun o => if isnumeric o then some 0 else none)))]⟩ := by
        unfold level_phase
        rw [hdisp.trans hvip]
        simp [hne]
      refine ⟨iff_of_false ?_ ?_, ?_, ?_⟩
      · rintro ⟨v, hv⟩
        rw [hlev] at hv
        cases hv
      · rintro ⟨hl1, hall2⟩
        exact hall hall2
      · intro h2; exfalso; omega
      · intro h0; exfalso; omega
  · -- two or more numeric objects
    have hvip : validate_integer_placeholder [IntegerPlaceholder] 0 objects
        (objects.map (fun _ => (none : Visit))) =
        Except.error ⟨["too many <integer> appearances in path"]⟩ := by
      simp only [validate_integer_placeholder, integer_claim_init]
      rw [if_pos ⟨hn, by simp⟩]
    have hlev : level_phase pt cp [IntegerPlaceholder] paths objects =
        Except.error ⟨[ctx_at pt cp, "too many <integer> appearances in path"]⟩ :=
      level_phase_rule_error pt cp [IntegerPlaceholder] paths objects _
        (hdisp.trans hvip)
    refine ⟨iff_of_false ?_ ?_, ?_, ?_⟩
    · rintro ⟨v, hv⟩
      rw [hlev] at hv
      cases hv
    · rintro ⟨hl1, hall⟩
      have hfe : objects.filter isnumeric = objects := List.filter_eq_self.mpr hall
      rw [hfe] at hn
      omega
    · intro _; exact hlev
    · intro h0; exfalso; omega

/-- C2 witness: a single all-digits object passes; a level with no numeric
object fails with the Integer "not found" error. -/
theorem c2_witness :
    (∃ v, level_phase PredictorType.python "m" [IntegerPlaceholder] ["7/w"] ["7"] =
      Except.ok v) ∧
    level_phase PredictorType.python "m" [IntegerPlaceholder] ["a/x", "b/y"] ["a", "b"] =
      Except.error ⟨[ctx_at PredictorType.python "m", "<integer> not found in path"]⟩ :=
  ⟨(c2_integer_sole_rule PredictorType.python "m" ["7/w"] ["7"] (by decide)).1.mpr
      (by decide),
   (c2_integer_sole_rule PredictorType.python "m" ["a/x", "b/y"] ["a", "b"]
      (by decide)).2.2 (by decide)⟩

/-- C8: at a level whose sole rule is `Any`, validation of the level
succeeds whatever the objects' names and however many there are — the Any
rule claims every object and neither the rule loop nor the unexpected-path
check raises. -/
theorem c8_any_sole_rule (pt : PredictorType) (cp : String) (paths objects : List String)
    (hobj : objects = dedupFirst (paths.map get_leftmost_part_of_path))
    (hne : objects ≠ []) :
    level_phase pt cp [AnyPlaceholder] paths objects =
      Except.ok (objects.map (fun _ => some 0)) := by
  have hrun : run_placeholder_rules [AnyPlaceholder] objects =
      Except.ok (objects.map (fun _ => some 0)) := by
    rw [run_single_rule]
    show validate_any_placeholder [AnyPlaceholder] 0 objects
        (objects.map (fun _ => (none : Visit))) = _
    unfold validate_any_placeholder
    rw [List.map_map]
    rfl
  apply level_phase_ok pt cp [AnyPlaceholder] paths objects _ hrun
  apply unvisited_nil_of_all_visited
  intro v hv
  rw [List.mem_map] at hv
  obtain ⟨o, ho, rfl⟩ := hv
  simp

/-- C8 witness at a concrete two-object level. -/
theorem c8_witness :
    level_phase PredictorType.python "m" [AnyPlaceholder] ["alpha/f", "beta"]
        ["alpha", "beta"] =
      Except.ok (["alpha", "beta"].map (fun _ => some 0)) :=
  c8_any_sole_rule PredictorType.python "m" ["alpha/f", "beta"] ["alpha", "beta"]
    (by decide) (by decide)

/-- C9: the Literal (generic) rule succeeds iff some object equals its
declared value exactly; on success it claims the first (unique, objects
being deduplicated) matching object if unvisited and touches nothing else,
leaving all remaining objects for later rules; with no match it fails with
the "wasn't found" error. -/
theorem c9_generic_literal_rule (ph : List Placeholder) (k : Nat) (objects : List String)
    (visited : List Visit) (value : String) :
    ((∃ v, validate_generic_placeholder ph k objects visited value = Except.ok v) ↔
      value ∈ objects) ∧
    (∀ idx, objects.findIdx? (fun o => o == value) = some idx →
      visited.get? idx = some none →
      validate_generic_placeholder ph k objects visited value =
        Except.ok (visited.set idx (some k))) ∧
    (value ∉ objects →
      validate_generic_placeholder ph k objects visited value =
        Except.error ⟨["generic placeholder for " ++ value ++ " wasn't found"]⟩) := by
  have hnone_iff : objects.findIdx? (fun o => o == value) = none ↔ value ∉ objects := by
    rw [List.findIdx?_eq_none_iff]
    constructor
    · intro h hmem
      have := h value hmem
      simp at this
    · intro hnot x hx
      by_cases hxv : x = value
      · exact absurd (hxv ▸ hx) hnot
      · simp [hxv]
  refine ⟨?_, ?_, ?_⟩
  · cases hf : objects.findIdx? (fun o => o == value) with
    | none =>
      have hnot := hnone_iff.mp hf
      have herr : validate_generic_placeholder ph k objects visited value =
          Except.error ⟨["generic placeholder for " ++ value ++ " wasn't found"]⟩ := by
        unfold validate_generic_placeholder
        rw [hf]
      refine iff_of_false ?_ hnot
      rintro ⟨v, hv⟩
      rw [herr] at hv
      cases hv
    | some idx =>
      have hmemv : value ∈ objects := by
        by_contra hnot
        rw [hnone_iff.mpr hnot] at hf
        cases hf
      refine iff_of_true ?_ hmemv
      have hred : validate_generic_placeholder ph k objects visited value =
          (if visited.get? idx = some none then Except.ok (visited.set idx (some k))
           else Except.ok visited) := by
        unfold validate_generic_placeholder
        rw [hf]
      by_cases hvis : visited.get? idx = some none
      · exact ⟨_, by rw [hred, if_pos hvis]⟩
      · exact ⟨_, by rw [hred, if_neg hvis]⟩
  · intro idx hidx hvis
    have hred : validate_generic_placeholder ph k objects visited value =
        (if visited.get? idx = some none then Except.ok (visited.set idx (some k))
         else Except.ok visited) := by
      unfold validate_generic_placeholder
      rw [hidx]
    rw [hred, if_pos hvis]
  · intro hnot
    unfold validate_generic_placeholder
    rw [hnone_iff.mpr hnot]

/-- C9 witness: the literal claims exactly the matching object. -/
theorem c9_witness :
    validate_generic_placeholder [] 5 ["x", "name"] [none, none] "name" =
      Except.ok ([none, none].set 1 (some 5)) :=
  (c9_generic_literal_rule [] 5 ["x", "name"] [none, none] "name").2.1 1
    (by decide) (by decide)

/-- C6 witness for the amended equality contract. -/
theorem c6_amended_witness :
    placeholderEq (Placeholder.template "<single>" 2) (Placeholder.template "<single>" 2) =
      true ∧
    genericHashKey "a" ≠ genericHashKey "b" :=
  ⟨(c6_amended_placeholder_equality.1 "<single>" 2 "<single>" 2).mpr ⟨rfl, rfl⟩,
   fun h => absurd ((c6_amended_placeholder_equality.2.2 "a" "b").mp h) (by decide)⟩
